import Mathlib

/-!
Verification of the Auto Growth Suggestion engine.

The repository has two variants of the engine:
* `growth_api.py` — the full variant: `safe_float` sanitization, a raw
  strict-positivity filter, a `< 4` short-circuit, CAGR in percent,
  a two-pair recent-trend window, blending, sector clamping, rounding to
  2 decimals.  Embedded below at top level.
* `financial_model_api.py` — an earlier variant whose `calculate_cagr`
  guards only `start <= 0 or end <= 0` and returns a fraction (its caller
  multiplies by 100).  Embedded in namespace `fm` where a claim cites it.

Python floats are modelled as rationals (`ℚ`) for the finite values, with
dedicated constructors for `None`, `nan` and the two infinities; the
arithmetic core (fractional powers, blending, rounding) lives in `ℝ`.
Raising is modelled with `Except`: the only raise site reachable from the
engine is the raw comparison `v > 0` applied to `None`.
-/

/-- Python exceptions that the embedded code can raise. -/
inductive PyErr : Type
  | typeError
  | zeroDivision
  deriving DecidableEq

/-- A Python value as it may appear in an input series: `None`, `nan`,
`inf`, `-inf`, or a finite number (modelled as a rational). -/
inductive PyVal : Type
  | none
  | nan
  | inf
  | ninf
  | num (q : ℚ)
  deriving DecidableEq

/-- `safe_float` from growth_api.py lines 24-29: `None` ↦ 0.0, `nan`/`inf`
↦ 0.0, any other (numeric) value converted as-is.  Total by construction. -/
def safe_float : PyVal → ℚ
  | .none => 0
  | .nan => 0
  | .inf => 0
  | .ninf => 0
  | .num q => q

/-- The Python comparison `v > 0` on a raw value (growth_api.py line 89):
`None > 0` raises `TypeError`; `nan > 0` is `False`; `inf > 0` is `True`;
`-inf > 0` is `False`; a finite number compares numerically. -/
def pyGtZero : PyVal → Except PyErr Bool
  | .none => .error .typeError
  | .nan => .ok false
  | .inf => .ok true
  | .ninf => .ok false
  | .num q => .ok (decide (0 < q))

/-- The cleaning comprehension of growth_api.py line 89:
`[safe_float(v) for v in values if v > 0]`.  The filter tests the RAW
value; kept entries are then sanitized. -/
def clean : List PyVal → Except PyErr (List ℚ)
  | [] => .ok []
  | v :: rest => do
    let keep ← pyGtZero v
    let tail ← clean rest
    if keep then pure (safe_float v :: tail) else pure tail

/-- A sector's growth bound (the `{"min": _, "max": _}` entries). -/
structure SectorLimit : Type where
  min : ℚ
  max : ℚ
  deriving DecidableEq

/-- `SECTOR_LIMITS` from growth_api.py lines 12-18. -/
def SECTOR_LIMITS : List (String × SectorLimit) :=
  [("ENERGY", ⟨4, 10⟩),
   ("IT", ⟨6, 15⟩),
   ("BANKING", ⟨7, 14⟩),
   ("FMCG", ⟨5, 12⟩),
   ("DEFAULT", ⟨5, 12⟩)]

/-- `SECTOR_LIMITS["DEFAULT"]` (the fallback of the `.get` call). -/
def DEFAULT_LIMITS : SectorLimit :=
  (SECTOR_LIMITS.lookup "DEFAULT").getD ⟨0, 0⟩

/-- Python's `str.upper()` (ASCII range, which covers the sector tags),
written with structural recursion so that it evaluates in the kernel. -/
def pyUpper (s : String) : String :=
  String.mk (s.data.map Char.toUpper)

/-- `SECTOR_LIMITS.get(sector.upper(), SECTOR_LIMITS["DEFAULT"])`
(growth_api.py line 106), as the spec's `limits_for`. -/
def limits_for (sector : String) : SectorLimit :=
  (SECTOR_LIMITS.lookup (pyUpper sector)).getD DEFAULT_LIMITS

/-- `calculate_cagr` from growth_api.py lines 35-42: sanitizes `start` and
`end`, returns 0.0 when `start <= 0 or end <= 0 or years <= 0`, otherwise
`((end / start) ** (1 / years) - 1) * 100`. -/
noncomputable def calculate_cagr (start endv : PyVal) (years : ℤ) : ℝ :=
  let s := safe_float start
  let e := safe_float endv
  if s ≤ 0 ∨ e ≤ 0 ∨ years ≤ 0 then 0
  else (((e : ℝ) / (s : ℝ)) ^ ((1 : ℝ) / (years : ℝ)) - 1) * 100

/-- The growth rates collected by the loop of growth_api.py lines 97-102:
`for i in range(-3, -1)` visits only the offsets `len - 3` and `len - 2`;
a pair contributes `((values[i+1] / values[i]) - 1) * 100` when its
divisor `values[i]` is strictly positive and is skipped otherwise. -/
def recentGrowths (vs : List ℚ) : List ℚ :=
  [vs.length - 3, vs.length - 2].filterMap (fun i =>
    if 0 < vs.getD i 0 then some ((vs.getD (i + 1) 0 / vs.getD i 0 - 1) * 100)
    else none)

/-- `recent_avg` from growth_api.py line 103:
`sum(recent) / len(recent) if recent else 0.0`. -/
def recent_avg (vs : List ℚ) : ℚ :=
  let r := recentGrowths vs
  if r = [] then 0 else r.sum / r.length

open Classical in
/-- Round-half-even (Python's `round` tie policy) to an integer. -/
noncomputable def roundHalfEven (x : ℝ) : ℤ :=
  if Int.fract x = 1 / 2 then (if Even ⌊x⌋ then ⌊x⌋ else ⌊x⌋ + 1)
  else round x

/-- Python's `round(x, p)`: round-half-even at `p` decimal places. -/
noncomputable def roundTo (p : ℕ) (x : ℝ) : ℝ :=
  (roundHalfEven (x * 10 ^ p) : ℤ) / 10 ^ p

/-- The body of `suggest_growth` (growth_api.py lines 88-110) after the
cleaning comprehension: short-circuit below 4 values, CAGR over first and
last, two-pair recent trend, 0.6/0.4 blend, sector clamp, rounding. -/
noncomputable def suggestCore (values : List ℚ) (sector : String) : ℝ × ℝ × ℝ :=
  if values.length < 4 then (0, 0, 0)
  else
    let years : ℤ := (values.length : ℤ) - 1
    let cagr := calculate_cagr (.num (values.getD 0 0))
      (.num (values.getD (values.length - 1) 0)) years
    let ravg := recent_avg values
    let raw := 0.6 * cagr + 0.4 * (ravg : ℝ)
    let limits := limits_for sector
    let final := min (max raw ((limits.min : ℚ) : ℝ)) ((limits.max : ℚ) : ℝ)
    (roundTo 2 final, roundTo 2 cagr, roundTo 2 (ravg : ℝ))

/-- `suggest_growth` from growth_api.py lines 88-110.  The only raise site
is the raw comparison inside the cleaning comprehension; everything after
cleaning is total. -/
noncomputable def suggest_growth (values : List PyVal) (sector : String) :
    Except PyErr (ℝ × ℝ × ℝ) :=
  (clean values).map (fun vs => suggestCore vs sector)

namespace fm

/-- `calculate_cagr` from financial_model_api.py lines 22-25: guards only
`start_value <= 0 or end_value <= 0` (returning 0), then computes
`(end_value / start_value) ** (1 / years) - 1` — a fraction, not a
percent; `1 / years` raises `ZeroDivisionError` when `years = 0`. -/
noncomputable def calculate_cagr (start_value end_value : ℚ) (years : ℤ) :
    Except PyErr ℝ :=
  if start_value ≤ 0 ∨ end_value ≤ 0 then .ok 0
  else if years = 0 then .error .zeroDivision
  else .ok (((end_value : ℝ) / (start_value : ℝ)) ^ ((1 : ℝ) / (years : ℝ)) - 1)

end fm

/-- Written from the spec's words, for comparison with `recentGrowths`
(claim C2): a window of the last THREE period-over-period transitions,
i.e. the offsets `len - 4`, `len - 3` and `len - 2`. -/
def recentGrowthsSpec3 (vs : List ℚ) : List ℚ :=
  [vs.length - 4, vs.length - 3, vs.length - 2].filterMap (fun i =>
    if 0 < vs.getD i 0 then some ((vs.getD (i + 1) 0 / vs.getD i 0 - 1) * 100)
    else none)

/-- Written from the spec's words (claim C2): mean of the three-transition
window, 0 when the window is empty. -/
def recentAvgSpec3 (vs : List ℚ) : ℚ :=
  let r := recentGrowthsSpec3 vs
  if r = [] then 0 else r.sum / r.length

lemma roundHalfEven_intCast (n : ℤ) : roundHalfEven ((n : ℤ) : ℝ) = n := by
  unfold roundHalfEven
  rw [Int.fract_intCast, if_neg (by norm_num)]
  exact round_intCast n

lemma roundTo_two_intCast (n : ℤ) : roundTo 2 ((n : ℤ) : ℝ) = ((n : ℤ) : ℝ) := by
  unfold roundTo
  have h : ((n : ℤ) : ℝ) * 10 ^ 2 = ((n * 100 : ℤ) : ℝ) := by push_cast; ring
  rw [h, roundHalfEven_intCast]
  push_cast
  ring

/-- Claim C7: `safe_float` is total (a Lean function into the finite
rationals), maps absent/NaN/infinite inputs to 0.0, and converts every
other numeric value as-is, e.g. `safe_float 5 = 5.0`. -/
theorem safe_float_total :
    safe_float PyVal.none = 0 ∧ safe_float PyVal.nan = 0 ∧
    safe_float PyVal.inf = 0 ∧ safe_float PyVal.ninf = 0 ∧
    (∀ q : ℚ, safe_float (PyVal.num q) = q) ∧ safe_float (PyVal.num 5) = 5 :=
  ⟨rfl, rfl, rfl, rfl, fun _ => rfl, rfl⟩

/-- Claim C8: the sector-limit lookup uppercases the tag and matches it
against the fixed table; `limits_for "it" = limits_for "IT" = {6, 15}`,
`limits_for "unknown" = limits_for "DEFAULT" = {5, 12}`, and every tag
absent from the uppercased table (including the empty string) resolves to
the DEFAULT entry without raising. -/
theorem limits_for_lookup :
    limits_for "it" = ⟨6, 15⟩ ∧ limits_for "IT" = ⟨6, 15⟩ ∧
    limits_for "unknown" = limits_for "DEFAULT" ∧
    limits_for "DEFAULT" = ⟨5, 12⟩ ∧ limits_for "" = ⟨5, 12⟩ ∧
    (∀ s : String, SECTOR_LIMITS.lookup (pyUpper s) = Option.none →
      limits_for s = DEFAULT_LIMITS) := by
  refine ⟨by decide, by decide, by decide, by decide, by decide, ?_⟩
  intro s h
  simp [limits_for, h]

/-- Witness for C8: a concrete unrecognized tag resolves to DEFAULT. -/
theorem limits_for_lookup_witness : limits_for "smallcap" = DEFAULT_LIMITS :=
  limits_for_lookup.2.2.2.2.2 "smallcap" (by decide)

/-- Counterexample to claim C9: in the window `[1, 2, 0, 4]` exactly one
valid pair exists (the pair `(2, 0)`; the pair `(0, 4)` has divisor 0 and
is skipped), yet the recent-trend computation returns that single pair's
growth `-100`, not `0.0`. -/
theorem recent_avg_single_pair_not_zero :
    (recentGrowths [1, 2, 0, 4]).length = 1 ∧
    recent_avg [1, 2, 0, 4] = -100 ∧ recent_avg [1, 2, 0, 4] ≠ 0 := by
  have h : recentGrowths [1, 2, 0, 4] = [-100] := by
    norm_num [recentGrowths, List.filterMap]
  have h2 : recent_avg [1, 2, 0, 4] = -100 := by
    simp [recent_avg, h]
  exact ⟨by rw [h]; rfl, h2, by rw [h2]; norm_num⟩

/-- Claim C9 (amended): the recent-trend computation returns `0.0` exactly
when ZERO valid pairs exist in the examined window; with at least one
valid pair it returns the mean of the collected growths, so a single
valid pair yields that pair's growth rate. -/
theorem recent_avg_no_pair (vs : List ℚ) (h : recentGrowths vs = []) :
    recent_avg vs = 0 := by
  simp [recent_avg, h]

/-- Witness for the amended C9: an all-zero window has no valid pair and
the recent trend is 0. -/
theorem recent_avg_no_pair_witness :
    recentGrowths [0, 0, 0, 0] = [] ∧ recent_avg [0, 0, 0, 0] = 0 :=
  ⟨by decide, recent_avg_no_pair [0, 0, 0, 0] (by decide)⟩

/-- Claim C10: the strict-positivity filter tests the RAW value before
sanitization, so in `[1, 2, inf, 4]` the infinite entry passes the filter
(`inf > 0` is true) and is sanitized to `0.0` inside the cleaned series:
the cleaned series `[1, 2, 0, 4]` is not all strictly positive, its
length 4 meets the 4-value minimum, and the `0.0` entry, as the numerator
of the transition from `2`, produces a `-100%` growth rate. -/
theorem raw_filter_before_sanitize :
    clean [PyVal.num 1, PyVal.num 2, PyVal.inf, PyVal.num 4] =
      .ok [1, 2, 0, 4] ∧
    ¬ (∀ x ∈ ([1, 2, 0, 4] : List ℚ), 0 < x) ∧
    ([1, 2, 0, 4] : List ℚ).length = 4 ∧
    ¬ (([1, 2, 0, 4] : List ℚ).length < 4) ∧
    recentGrowths [1, 2, 0, 4] = [-100] := by
  refine ⟨rfl, ?_, by decide, by decide, ?_⟩
  · intro h
    have := h 0 (by norm_num)
    norm_num at this
  · norm_num [recentGrowths, List.filterMap]

/-- Claim C1 (code bug): the engine is not exception-free.  A series
containing `None` raises `TypeError` at the raw comparison `v > 0` of the
cleaning comprehension, before `safe_float` ever sees the value. -/
theorem suggest_growth_raises_on_none :
    suggest_growth [PyVal.none, PyVal.num 1, PyVal.num 2, PyVal.num 3,
      PyVal.num 4] "IT" = .error .typeError := rfl

/-- Counterexample to claim C4: financial_model_api's `calculate_cagr`
guards only `start <= 0 or end <= 0`.  At `start = 2, end = 2, years = 0`
(a combination with `years <= 0`) it evaluates `1 / years` and raises
`ZeroDivisionError` instead of returning `0.0`. -/
theorem fm_cagr_raises_on_zero_years :
    fm.calculate_cagr 2 2 0 = .error .zeroDivision ∧
    fm.calculate_cagr 2 2 0 ≠ .ok 0 := by
  have h : fm.calculate_cagr 2 2 0 = .error .zeroDivision := by
    rw [fm.calculate_cagr, if_neg (by norm_num), if_pos rfl]
  exact ⟨h, by rw [h]; intro hc; exact Except.noConfusion hc⟩

/-- Claim C4 (amended): growth_api's `calculate_cagr` returns `0.0` for
every combination with `start <= 0 or end <= 0 or years <= 0`, without
raising or dividing; financial_model_api's variant guarantees this only
for `start <= 0 or end <= 0` (with positive endpoints it raises
`ZeroDivisionError` at `years = 0`). -/
theorem cagr_guard :
    (∀ (s e : ℚ) (y : ℤ), s ≤ 0 ∨ e ≤ 0 ∨ y ≤ 0 →
      calculate_cagr (.num s) (.num e) y = 0) ∧
    (∀ (s e : ℚ) (y : ℤ), s ≤ 0 ∨ e ≤ 0 →
      fm.calculate_cagr s e y = .ok 0) := by
  constructor
  · intro s e y h
    simp only [calculate_cagr, safe_float]
    rw [if_pos h]
  · intro s e y h
    simp only [fm.calculate_cagr]
    rw [if_pos h]

/-- Witness for the amended C4: concrete degenerate inputs give 0. -/
theorem cagr_guard_witness :
    calculate_cagr (.num (-1)) (.num 1) 5 = 0 ∧
    fm.calculate_cagr (-1) 1 5 = .ok 0 :=
  ⟨cagr_guard.1 (-1) 1 5 (Or.inl (by norm_num)),
   cagr_guard.2 (-1) 1 5 (Or.inl (by norm_num))⟩

/-- Counterexample to claim C5: financial_model_api's `calculate_cagr`
returns the FRACTION `(end/start)^(1/years) - 1`, not the percentage.
At `start = 1, end = 4, years = 1` it returns `3`, while the claimed
formula `((end/start)^(1/years) - 1) * 100` equals `300`. -/
theorem fm_cagr_not_percent :
    fm.calculate_cagr 1 4 1 = .ok 3 ∧
    fm.calculate_cagr 1 4 1 ≠
      .ok (((((4 : ℚ) : ℝ) / ((1 : ℚ) : ℝ)) ^ ((1 : ℝ) / ((1 : ℤ) : ℝ)) - 1) * 100) := by
  have hval : ((((4 : ℚ) : ℝ) / ((1 : ℚ) : ℝ)) ^ ((1 : ℝ) / ((1 : ℤ) : ℝ)) - 1) = 3 := by
    norm_num
  have h : fm.calculate_cagr 1 4 1 = .ok 3 := by
    rw [fm.calculate_cagr, if_neg (by norm_num), if_neg (by norm_num)]
    rw [hval]
  refine ⟨h, ?_⟩
  rw [h, hval]
  intro hc
  have h3 : (3 : ℝ) = 3 * 100 := Except.ok.inj hc
  norm_num at h3

/-- Claim C5 (amended): for strictly positive `start`, `end` and
`years > 0`, growth_api's `calculate_cagr` returns the percentage
`((end/start)^(1/years) - 1) * 100`; financial_model_api's variant
returns the corresponding fraction (its call site applies the `* 100`). -/
theorem cagr_formula :
    (∀ (s e : ℚ) (y : ℤ), 0 < s → 0 < e → 0 < y →
      calculate_cagr (.num s) (.num e) y =
        (((e : ℝ) / (s : ℝ)) ^ ((1 : ℝ) / (y : ℝ)) - 1) * 100) ∧
    (∀ (s e : ℚ) (y : ℤ), 0 < s → 0 < e → 0 < y →
      fm.calculate_cagr s e y =
        .ok (((e : ℝ) / (s : ℝ)) ^ ((1 : ℝ) / (y : ℝ)) - 1)) := by
  constructor
  · intro s e y hs he hy
    simp only [calculate_cagr, safe_float]
    rw [if_neg (by push_neg; exact ⟨hs, he, hy⟩)]
  · intro s e y hs he hy
    simp only [fm.calculate_cagr]
    rw [if_neg (by push_neg; exact ⟨hs, he⟩), if_neg (by omega)]

/-- Witness for the amended C5: at `start = 1, end = 4, years = 1` the
growth_api variant returns `300` (a percentage) and the
financial_model_api variant returns the fraction `3`. -/
theorem cagr_formula_witness :
    calculate_cagr (.num 1) (.num 4) 1 = 300 ∧
    fm.calculate_cagr 1 4 1 = .ok 3 := by
  have h1 := cagr_formula.1 1 4 1 (by norm_num) (by norm_num) (by norm_num)
  have h2 := cagr_formula.2 1 4 1 (by norm_num) (by norm_num) (by norm_num)
  constructor
  · rw [h1]; norm_num
  · rw [h2]; norm_num

/-- Counterexample to claim C2: the loop `range(-3, -1)` examines only
TWO pairs, not three.  On the cleaned series `[1, 100, 1, 1, 1]` the
engine's recent trend is `0.0`, while the mean over the three most recent
transitions (as the claim states it) is `-33`. -/
theorem recent_trend_not_three_pairs :
    recent_avg [1, 100, 1, 1, 1] = 0 ∧
    recentAvgSpec3 [1, 100, 1, 1, 1] = -33 ∧
    recent_avg [1, 100, 1, 1, 1] ≠ recentAvgSpec3 [1, 100, 1, 1, 1] := by
  have h1 : recent_avg [1, 100, 1, 1, 1] = 0 := by
    norm_num [recent_avg, recentGrowths, List.filterMap]
  have h2 : recentAvgSpec3 [1, 100, 1, 1, 1] = -33 := by
    have hg : recentGrowthsSpec3 [1, 100, 1, 1, 1] = [-99, 0, 0] := by
      norm_num [recentGrowthsSpec3, List.filterMap]
    rw [recentAvgSpec3, hg]
    norm_num [List.cons_ne_nil]
  exact ⟨h1, h2, by rw [h1, h2]; norm_num⟩

/-- Claim C2 (amended): for a sanitized oldest-to-latest series with at
least 4 values, the recent-trend computation examines the last TWO
consecutive pairs (the two most recent period-over-period transitions,
drawn from the last three values), computes `((v[i+1]/v[i]) - 1) * 100`
for each pair whose divisor is strictly positive, skips pairs with a
non-positive divisor, and returns the arithmetic mean of the collected
rates (0.0 if no valid pair exists). -/
theorem recent_trend_two_pairs (vs : List ℚ) (h : 4 ≤ vs.length) :
    recentGrowths vs =
      (if 0 < vs.getD (vs.length - 3) 0
       then [(vs.getD (vs.length - 2) 0 / vs.getD (vs.length - 3) 0 - 1) * 100]
       else []) ++
      (if 0 < vs.getD (vs.length - 2) 0
       then [(vs.getD (vs.length - 1) 0 / vs.getD (vs.length - 2) 0 - 1) * 100]
       else []) ∧
    recent_avg vs = (if recentGrowths vs = [] then 0
      else (recentGrowths vs).sum / (recentGrowths vs).length) := by
  have e1 : vs.length - 3 + 1 = vs.length - 2 := by omega
  have e2 : vs.length - 2 + 1 = vs.length - 1 := by omega
  constructor
  · simp only [recentGrowths, List.filterMap_cons, List.filterMap_nil, e1, e2]
    split_ifs <;> simp
  · rfl

/-- Witness for the amended C2: on `[1, 2, 4, 8]` both examined pairs are
valid, the growths are `100` and `100`, and the mean is `100`. -/
theorem recent_trend_two_pairs_witness :
    recentGrowths [1, 2, 4, 8] = [100, 100] ∧
    recent_avg [1, 2, 4, 8] = 100 := by
  have h := recent_trend_two_pairs [1, 2, 4, 8] (by norm_num)
  have h1 : recentGrowths [1, 2, 4, 8] = [100, 100] := by
    rw [h.1]; norm_num
  exact ⟨h1, by rw [h.2, h1]; norm_num [List.cons_ne_nil]⟩

/-- Counterexample to claim C3: the short-circuit counts the entries kept
by the RAW filter, not the strictly positive sanitized values.  The input
`[1, 2, inf, 4]` cleans to `[1, 2, 0, 4]`, which has only 3 strictly
positive sanitized values, yet the engine does not short-circuit: its
recent-trend output is `-100`, so the result is not `(0, 0, 0)`. -/
theorem short_circuit_counts_raw_entries :
    clean [PyVal.num 1, PyVal.num 2, PyVal.inf, PyVal.num 4] =
      .ok [1, 2, 0, 4] ∧
    (([1, 2, 0, 4] : List ℚ).filter (fun x => decide (0 < x))).length = 3 ∧
    suggest_growth [PyVal.num 1, PyVal.num 2, PyVal.inf, PyVal.num 4]
      "DEFAULT" ≠ .ok (0, 0, 0) := by
  refine ⟨rfl, rfl, ?_⟩
  intro hc
  have hring : suggest_growth [PyVal.num 1, PyVal.num 2, PyVal.inf,
      PyVal.num 4] "DEFAULT" = .ok (suggestCore [1, 2, 0, 4] "DEFAULT") := rfl
  rw [hring] at hc
  have hcore := Except.ok.inj hc
  have h0 : (suggestCore [1, 2, 0, 4] "DEFAULT").2.2 = (0 : ℝ) := by
    rw [hcore]
  have havg : recent_avg [1, 2, 0, 4] = -100 := by
    have hg : recentGrowths [1, 2, 0, 4] = [-100] := by
      norm_num [recentGrowths, List.filterMap]
    rw [recent_avg, hg]
    norm_num [List.cons_ne_nil]
  have hthird : (suggestCore [1, 2, 0, 4] "DEFAULT").2.2 =
      roundTo 2 ((recent_avg [1, 2, 0, 4] : ℚ) : ℝ) := by
    simp only [suggestCore]
    rw [if_neg (by norm_num)]
  rw [hthird, havg] at h0
  have hcast : ((( -100 : ℚ)) : ℝ) = (((-100 : ℤ)) : ℝ) := by norm_num
  rw [hcast, roundTo_two_intCast] at h0
  norm_num at h0

/-- Claim C3 (amended): the engine short-circuits to
`(0.0, 0.0, 0.0)` exactly when fewer than 4 entries survive the cleaning
comprehension — whose filter keeps every entry whose RAW value compares
`> 0` (so a kept `inf` sanitizes to `0.0` and still counts); in
particular every error-free series of length 3 or less short-circuits,
for every sector. -/
theorem suggest_short_circuit (pvs : List PyVal) (sector : String)
    (out : List ℚ) (h1 : clean pvs = .ok out) (h2 : out.length < 4) :
    suggest_growth pvs sector = .ok (0, 0, 0) := by
  simp only [suggest_growth, h1, Except.map]
  simp only [suggestCore, if_pos h2]

/-- Witness for the amended C3: a length-3 series short-circuits. -/
theorem suggest_short_circuit_witness :
    clean [PyVal.num 1, PyVal.num 2, PyVal.num 3] = .ok [1, 2, 3] ∧
    ([1, 2, 3] : List ℚ).length < 4 ∧
    suggest_growth [PyVal.num 1, PyVal.num 2, PyVal.num 3] "FMCG" =
      .ok (0, 0, 0) :=
  ⟨rfl, by norm_num,
   suggest_short_circuit _ "FMCG" [1, 2, 3] rfl (by norm_num)⟩

/-- Claim C6: whenever the cleaned series has at least 4 values, the
engine returns exactly the blend `raw = 0.6 * cagr + 0.4 * recent_trend`
clamped into the sector's `[min, max]` interval as
`min(max(raw, sector.min), sector.max)` and then rounded to 2 decimal
places (the reported CAGR and recent trend are rounded but unclamped). -/
theorem suggest_clamped (pvs : List PyVal) (sector : String)
    (out : List ℚ) (h1 : clean pvs = .ok out) (h2 : 4 ≤ out.length) :
    suggest_growth pvs sector = .ok
      (roundTo 2 (min (max
          (0.6 * calculate_cagr (.num (out.getD 0 0))
              (.num (out.getD (out.length - 1) 0)) ((out.length : ℤ) - 1)
            + 0.4 * ((recent_avg out : ℚ) : ℝ))
          (((limits_for sector).min : ℚ) : ℝ))
        (((limits_for sector).max : ℚ) : ℝ)),
       roundTo 2 (calculate_cagr (.num (out.getD 0 0))
          (.num (out.getD (out.length - 1) 0)) ((out.length : ℤ) - 1)),
       roundTo 2 ((recent_avg out : ℚ) : ℝ)) := by
  simp only [suggest_growth, h1, Except.map]
  simp only [suggestCore, if_neg (not_lt.mpr h2)]

/-- Witness for C6: the series `[1, 2, 4, 8]` with sector `ENERGY`
reaches the blend-and-clamp branch. -/
theorem suggest_clamped_witness :
    clean [PyVal.num 1, PyVal.num 2, PyVal.num 4, PyVal.num 8] =
      .ok [1, 2, 4, 8] ∧
    4 ≤ ([1, 2, 4, 8] : List ℚ).length ∧
    suggest_growth [PyVal.num 1, PyVal.num 2, PyVal.num 4, PyVal.num 8]
      "ENERGY" = .ok
      (roundTo 2 (min (max
          (0.6 * calculate_cagr (.num 1) (.num 8) 3
            + 0.4 * ((recent_avg [1, 2, 4, 8] : ℚ) : ℝ))
          ((4 : ℚ) : ℝ)) ((10 : ℚ) : ℝ)),
       roundTo 2 (calculate_cagr (.num 1) (.num 8) 3),
       roundTo 2 ((recent_avg [1, 2, 4, 8] : ℚ) : ℝ)) :=
  ⟨rfl, by norm_num,
   suggest_clamped _ "ENERGY" [1, 2, 4, 8] rfl (by norm_num)⟩
